import Mathlib

/-!
Shallow embedding of `src/demo/hcs-12/rust-wasm/src/lib.rs` (the only source
file of the repository): a WASM plugin module exposing three entry points
`INFO`, `POST` and `GET` on `WasmInterface`.

Modelling conventions:
* `serde_json::Value` is embedded as the inductive `Json` below.  Its `num`
  constructor carries an `Int`: every parameter document the claims quantify
  over holds integer-valued JSON numbers, and the only numeric operation the
  source performs on them is `as_f64()` followed by a Rust `as i32` cast.
  For every integer value (however large) that composite equals clamping to
  the `i32` range, because the `f64` rounding of an integer outside
  `[-2^31, 2^31-1]` stays outside that range and Rust float-to-int `as`
  casts saturate; inside the range the `f64` is exact.  This is `i32OfF64`.
* `Result<String, JsValue>` is embedded as `Except String Json`: the `Ok`
  payload is the JSON document the source builds with `json!` just before
  `.to_string()`, and a `JsValue` error carries its message string.  The
  final serialization step is not modelled; the claims are about the
  documents' fields.
* The `params: &str` argument of `POST` is immediately fed to
  `serde_json::from_str` (lib.rs:243).  `post` below therefore takes the
  outcome of that parse as `Option Json`: `none` stands for a params string
  that is not well-formed JSON, `some j` for one parsing to the value `j`.
  `GET` never parses its `params`, so `get` keeps it as a raw `String`.
* `i32` addition/subtraction (`count + amount`, lib.rs:256/275) is modelled
  with two's-complement wraparound (`i32Wrap`), the release-profile Rust
  semantics used for wasm builds.
* serde_json objects are maps with unique keys; `Json.obj` carries the
  field list in source order and `Json.getField` looks a key up in it.
-/

set_option linter.unusedVariables false

namespace StandardsSDK

/-- Embedding of `serde_json::Value` restricted to integer-valued numbers
(see the module docstring). -/
inductive Json where
  | null : Json
  | bool : Bool → Json
  | num : Int → Json
  | str : String → Json
  | arr : List Json → Json
  | obj : List (String × Json) → Json

/-- `serde_json::Value::get(key)`: field lookup on an object, `None` on any
other value. -/
def Json.getField : Json → String → Option Json
  | .obj fields, key => fields.lookup key
  | _, _ => none

/-- `Value::as_f64()` on the integer-valued fragment: any number converts,
nothing else does. -/
def Json.asNum : Json → Option Int
  | .num n => some n
  | _ => none

/-- `Value::as_bool()`. -/
def Json.asBool : Json → Option Bool
  | .bool b => some b
  | _ => none

/-- `ValidationRule` (lib.rs:35-41).  The source fields are `Option<f64>`;
the only values ever stored are the integral constants `1.0` and `100.0`,
modelled as `Int`. -/
structure ValidationRule where
  min : Option Int
  max : Option Int

/-- `ParameterDefinition` (lib.rs:26-33). -/
structure ParameterDefinition where
  name : String
  param_type : String
  description : String
  required : Bool
  validation : Option ValidationRule

/-- `NetworkCapability` (lib.rs:52-56). -/
structure NetworkCapability where
  networks : List String
  operations : List String

/-- `TransactionCapability` (lib.rs:58-62).  `max_fee_hbar` is `Option<f64>`
in the source and never populated; modelled as `Option Int`. -/
structure TransactionCapability where
  transaction_types : List String
  max_fee_hbar : Option Int

/-- `Capability` (lib.rs:43-50). -/
inductive Capability where
  | network (value : NetworkCapability)
  | transaction (value : TransactionCapability)

/-- `ActionDefinition` (lib.rs:17-24). -/
structure ActionDefinition where
  name : String
  description : String
  inputs : List ParameterDefinition
  outputs : List ParameterDefinition
  required_capabilities : List Capability

/-- `PluginDefinition` (lib.rs:64-71). -/
structure PluginDefinition where
  name : String
  version : String
  url : String
  description : String
  required : Bool

/-- `ModuleInfo` (lib.rs:5-15). -/
structure ModuleInfo where
  name : String
  version : String
  hashlinks_version : String
  creator : String
  purpose : String
  actions : List ActionDefinition
  capabilities : List Capability
  plugins : List PluginDefinition

/-- The `ModuleInfo` value built by `WasmInterface::INFO` (lib.rs:84-229).
The source then serializes it with `serde_json::to_string`; the claims only
concern the document's contents, so the value itself is the model. -/
def info : ModuleInfo :=
  { name := "Demo Actions Module"
    version := "1.0.0"
    hashlinks_version := "0.1.0"
    creator := "HashGraph Online"
    purpose := "Demo actions for counter and container blocks"
    actions :=
      [{ name := "increment"
         description := "Increment the counter"
         inputs :=
           [{ name := "amount"
              param_type := "number"
              description := "Amount to increment by"
              required := false
              validation := some { min := some 1, max := some 100 } },
            { name := "count"
              param_type := "number"
              description := "Current counter value"
              required := true
              validation := none }]
         outputs :=
           [{ name := "count"
              param_type := "number"
              description := "Updated counter value"
              required := true
              validation := none }]
         required_capabilities := [] },
       { name := "decrement"
         description := "Decrement the counter"
         inputs :=
           [{ name := "amount"
              param_type := "number"
              description := "Amount to decrement by"
              required := false
              validation := some { min := some 1, max := some 100 } },
            { name := "count"
              param_type := "number"
              description := "Current counter value"
              required := true
              validation := none }]
         outputs :=
           [{ name := "count"
              param_type := "number"
              description := "Updated counter value"
              required := true
              validation := none }]
         required_capabilities := [] },
       { name := "reset"
         description := "Reset the counter to zero"
         inputs := []
         outputs :=
           [{ name := "count"
              param_type := "number"
              description := "Reset counter value (0)"
              required := true
              validation := none }]
         required_capabilities := [] },
       { name := "toggleCounter"
         description := "Toggle visibility of counter block"
         inputs :=
           [{ name := "showCounter"
              param_type := "boolean"
              description := "Current visibility state of counter"
              required := true
              validation := none }]
         outputs :=
           [{ name := "showCounter"
              param_type := "boolean"
              description := "Updated visibility state"
              required := true
              validation := none }]
         required_capabilities := [] },
       { name := "toggleStats"
         description := "Toggle visibility of stats block"
         inputs :=
           [{ name := "showStats"
              param_type := "boolean"
              description := "Current visibility state of stats"
              required := true
              validation := none }]
         outputs :=
           [{ name := "showStats"
              param_type := "boolean"
              description := "Updated visibility state"
              required := true
              validation := none }]
         required_capabilities := [] }]
    capabilities :=
      [Capability.network
        { networks := ["mainnet", "testnet"]
          operations := ["query"] }]
    plugins := [] }

/-- Smallest `i32`. -/
def i32Min : Int := -(2 ^ 31)

/-- Largest `i32`. -/
def i32Max : Int := 2 ^ 31 - 1

/-- The composite `as_f64()` value cast with Rust's saturating `as i32`,
evaluated on an integer-valued number: clamp into the `i32` range. -/
def i32OfF64 (v : Int) : Int := max i32Min (min i32Max v)

/-- Two's-complement wraparound into the `i32` range: release-profile Rust
`i32` overflow semantics. -/
def i32Wrap (v : Int) : Int := (v + 2 ^ 31) % 2 ^ 32 - 2 ^ 31

/-- `WasmInterface::POST` (lib.rs:235-329).  `paramsJson` is the outcome of
`serde_json::from_str(params)`: `none` means the parse failed, in which case
the source propagates a hard error with `?` (lib.rs:243-244). -/
def post (action : String) (paramsJson : Option Json)
    (network : String) (hash_link_memo : String) : Except String Json :=
  match paramsJson with
  | none => .error "Failed to parse params"
  | some params_json =>
    match action with
    | "increment" =>
      let amount := i32OfF64 (((params_json.getField "amount").bind Json.asNum).getD 1)
      match (params_json.getField "count").bind Json.asNum with
      | none => .error "Missing required parameter: count"
      | some c =>
        let count := i32OfF64 c
        let new_count := i32Wrap (count + amount)
        .ok (Json.obj
          [("success", .bool true),
           ("data", .obj [("count", .num new_count)]),
           ("message", .str s!"Counter incremented by {amount} to {new_count}")])
    | "decrement" =>
      let amount := i32OfF64 (((params_json.getField "amount").bind Json.asNum).getD 1)
      match (params_json.getField "count").bind Json.asNum with
      | none => .error "Missing required parameter: count"
      | some c =>
        let count := i32OfF64 c
        let new_count := i32Wrap (count - amount)
        .ok (Json.obj
          [("success", .bool true),
           ("data", .obj [("count", .num new_count)]),
           ("message", .str s!"Counter decremented by {amount} to {new_count}")])
    | "reset" =>
      .ok (Json.obj
        [("success", .bool true),
         ("data", .obj [("count", .num 0)]),
         ("message", .str "Counter reset to 0")])
    | "toggleCounter" =>
      match (params_json.getField "showCounter").bind Json.asBool with
      | none => .error "Missing required parameter: showCounter"
      | some show_counter =>
        let new_state := !show_counter
        .ok (Json.obj
          [("success", .bool true),
           ("data", .obj [("showCounter", .bool new_state)]),
           ("message", .str s!"Counter visibility toggled to {new_state}")])
    | "toggleStats" =>
      match (params_json.getField "showStats").bind Json.asBool with
      | none => .error "Missing required parameter: showStats"
      | some show_stats =>
        let new_state := !show_stats
        .ok (Json.obj
          [("success", .bool true),
           ("data", .obj [("showStats", .bool new_state)]),
           ("message", .str s!"Stats visibility toggled to {new_state}")])
    | _ =>
      .ok (Json.obj
        [("success", .bool false),
         ("error", .str s!"Unknown action: {action}")])

/-- `WasmInterface::GET` (lib.rs:331-403).  The source never touches
`params` or `network`; they are kept as raw strings. -/
def get (action : String) (params : String) (network : String) :
    Except String Json :=
  match action with
  | "increment" =>
    .ok (Json.obj
      [("title", .str "Increment Counter"),
       ("description", .str "Increase the counter value"),
       ("label", .str "Increment"),
       ("parameters", .arr
         [Json.obj
           [("type", .str "number"),
            ("name", .str "amount"),
            ("label", .str "Amount to increment"),
            ("required", .bool false),
            ("default", .num 1),
            ("min", .num 1),
            ("max", .num 100)]])])
  | "decrement" =>
    .ok (Json.obj
      [("title", .str "Decrement Counter"),
       ("description", .str "Decrease the counter value"),
       ("label", .str "Decrement"),
       ("parameters", .arr
         [Json.obj
           [("type", .str "number"),
            ("name", .str "amount"),
            ("label", .str "Amount to decrement"),
            ("required", .bool false),
            ("default", .num 1),
            ("min", .num 1),
            ("max", .num 100)]])])
  | "reset" =>
    .ok (Json.obj
      [("title", .str "Reset Counter"),
       ("description", .str "Reset the counter to zero"),
       ("label", .str "Reset"),
       ("parameters", .arr [])])
  | "toggleCounter" =>
    .ok (Json.obj
      [("title", .str "Toggle Counter"),
       ("description", .str "Toggle visibility of the counter block"),
       ("label", .str "Toggle Counter"),
       ("parameters", .arr [])])
  | "toggleStats" =>
    .ok (Json.obj
      [("title", .str "Toggle Stats"),
       ("description", .str "Toggle visibility of the stats block"),
       ("label", .str "Toggle Stats"),
       ("parameters", .arr [])])
  | _ =>
    .ok (Json.obj [("error", .str s!"Unknown action: {action}")])

/-- The five action names that `post` and `get` match on (lib.rs:247-323
and lib.rs:339-397), in source order. -/
def actionNames : List String :=
  ["increment", "decrement", "reset", "toggleCounter", "toggleStats"]

/-- The document `post` returns for an unknown action (lib.rs:324-327). -/
def unknownActionResult (action : String) : Json :=
  Json.obj
    [("success", .bool false),
     ("error", .str s!"Unknown action: {action}")]

/-- The document `get` returns for an unknown action (lib.rs:399-401). -/
def unknownActionForm (action : String) : Json :=
  Json.obj [("error", .str s!"Unknown action: {action}")]

/-- The `success` field of a `POST` result document, `none` on a hard
failure of the call. -/
def resultSuccess (r : Except String Json) : Option Json :=
  match r with
  | .ok j => j.getField "success"
  | .error _ => none

/-- A field of the `data` payload of a `POST` result document, `none` on a
hard failure of the call or when the field is absent. -/
def resultData (r : Except String Json) (key : String) : Option Json :=
  match r with
  | .ok j => (j.getField "data").bind (fun d => d.getField key)
  | .error _ => none

/-- The `error` field of a `POST`/`GET` result document, `none` on a hard
failure of the call or when the field is absent. -/
def resultError (r : Except String Json) : Option Json :=
  match r with
  | .ok j => j.getField "error"
  | .error _ => none

theorem i32OfF64_eq_self {v : Int} (h1 : -(2 ^ 31) ≤ v) (h2 : v ≤ 2 ^ 31 - 1) :
    i32OfF64 v = v := by
  unfold i32OfF64 i32Min i32Max
  omega

theorem i32Wrap_eq_self {v : Int} (h1 : -(2 ^ 31) ≤ v) (h2 : v ≤ 2 ^ 31 - 1) :
    i32Wrap v = v := by
  unfold i32Wrap
  omega

theorem i32OfF64_one : i32OfF64 1 = 1 := by decide

theorem post_unknown_of_not_mem (a : String) (j : Json) (net memo : String)
    (h : a ∉ actionNames) :
    post a (some j) net memo = Except.ok (unknownActionResult a) := by
  simp [actionNames] at h
  obtain ⟨h1, h2, h3, h4, h5⟩ := h
  unfold post
  split <;> simp_all [unknownActionResult]

theorem post_ne_unknown_of_mem (a : String) (j : Json) (net memo : String)
    (h : a ∈ actionNames) :
    post a (some j) net memo ≠ Except.ok (unknownActionResult a) := by
  simp [actionNames] at h
  rcases h with rfl | rfl | rfl | rfl | rfl <;>
    · unfold post
      split <;> (try simp_all [unknownActionResult]) <;>
        (split <;> simp_all [unknownActionResult])

theorem get_unknown_of_not_mem (a p net : String) (h : a ∉ actionNames) :
    get a p net = Except.ok (unknownActionForm a) := by
  simp [actionNames] at h
  obtain ⟨h1, h2, h3, h4, h5⟩ := h
  unfold get
  split <;> simp_all [unknownActionForm]

theorem get_ne_unknown_of_mem (a p net : String) (h : a ∈ actionNames) :
    get a p net ≠ Except.ok (unknownActionForm a) := by
  simp [actionNames] at h
  rcases h with rfl | rfl | rfl | rfl | rfl <;> simp [get, unknownActionForm]

theorem get_isOk (a p net : String) : (get a p net).isOk = true := by
  unfold get
  split <;> rfl

theorem post_missing_count (j : Json) (net memo : String)
    (h : (j.getField "count").bind Json.asNum = none) :
    post "increment" (some j) net memo
        = Except.error "Missing required parameter: count" ∧
    post "decrement" (some j) net memo
        = Except.error "Missing required parameter: count" := by
  unfold post
  simp [h]

/-- Claim C1, counterexample: at the concrete params document
`{"amount": 5}` (the spec's own example), `POST "increment"` does NOT
return an `ActionResult` with `success=false` — the call itself hard-fails
with the error `Missing required parameter: count`, refuting the claimed
"no hard failure". -/
theorem post_count_omitted_counterexample :
    (post "increment" (some (Json.obj [("amount", Json.num 5)])) "" "").isOk = false ∧
    resultSuccess (post "increment" (some (Json.obj [("amount", Json.num 5)])) "" "") = none ∧
    post "increment" (some (Json.obj [("amount", Json.num 5)])) "" ""
      = Except.error "Missing required parameter: count" :=
  ⟨rfl, rfl, rfl⟩

/-- Claim C1 (amended): for the POST executor with action `increment` (and
likewise `decrement`), if the params document omits the `count` field, the
call itself fails hard with the error `Missing required parameter: count`
(lib.rs:252-254 propagates it with `?`); no `ActionResult` document is
returned. -/
theorem post_count_omitted_hard_failure (j : Json) (net memo : String)
    (h : j.getField "count" = none) :
    post "increment" (some j) net memo
        = Except.error "Missing required parameter: count" ∧
    post "decrement" (some j) net memo
        = Except.error "Missing required parameter: count" ∧
    (post "increment" (some j) net memo).isOk = false := by
  have hb : (j.getField "count").bind Json.asNum = none := by rw [h]; rfl
  obtain ⟨h1, h2⟩ := post_missing_count j net memo hb
  exact ⟨h1, h2, by rw [h1]; rfl⟩

/-- Claim C1, witness for the amended theorem at the empty params
document. -/
theorem post_count_omitted_hard_failure_witness :
    post "increment" (some (Json.obj [])) "" ""
      = Except.error "Missing required parameter: count" :=
  (post_count_omitted_hard_failure (Json.obj []) "" "" rfl).1

/-- Claim C2: for every action name and every params string that fails to
parse as JSON (`paramsJson = none` models the failed
`serde_json::from_str`, lib.rs:243-244), `POST` is a hard failure: the
call returns `Err` and no `ActionResult` document. -/
theorem post_malformed_params_hard_failure (action net memo : String) :
    post action none net memo = Except.error "Failed to parse params" ∧
    (post action none net memo).isOk = false :=
  ⟨rfl, rfl⟩

/-- Claim C3: for every action name outside
`{increment, decrement, reset, toggleCounter, toggleStats}` and every
well-formed params document, `POST` succeeds (no hard failure) and returns
the document `{"success": false, "error": "Unknown action: <name>"}`,
whose error string contains `Unknown action` (lib.rs:324-327). -/
theorem post_unknown_action_soft_error (a : String) (j : Json) (net memo : String)
    (h : a ∉ actionNames) :
    post a (some j) net memo = Except.ok (unknownActionResult a) ∧
    resultSuccess (post a (some j) net memo) = some (Json.bool false) ∧
    resultError (post a (some j) net memo) = some (Json.str s!"Unknown action: {a}") ∧
    (post a (some j) net memo).isOk = true := by
  have hp := post_unknown_of_not_mem a j net memo h
  refine ⟨hp, ?_, ?_, ?_⟩ <;>
    simp [hp, resultSuccess, resultError, unknownActionResult, Json.getField,
      List.lookup, Except.isOk, Except.toBool]

/-- Claim C3, witness at the spec's own example `execute("unknownAction", {})`. -/
theorem post_unknown_action_soft_error_witness :
    post "unknownAction" (some (Json.obj [])) "" ""
      = Except.ok (unknownActionResult "unknownAction") :=
  (post_unknown_action_soft_error "unknownAction" (Json.obj []) "" "" (by decide)).1

/-- Claim C4, counterexample: at `count = 0`, `amount = 2^31` (an integer
with `amount ≥ 1`), the `as i32` saturating cast (lib.rs:250) clamps the
amount to `2147483647`, so the returned `data.count` is `2147483647`, not
the claimed `0 + 2^31`. -/
theorem post_increment_saturation_counterexample :
    resultData (post "increment"
        (some (Json.obj [("count", Json.num 0), ("amount", Json.num (2 ^ 31))])) "" "") "count"
      = some (Json.num 2147483647) ∧
    (0 : Int) + 2 ^ 31 ≠ 2147483647 :=
  ⟨rfl, by decide⟩

/-- Claim C4 (amended): for all integers `c`, `a` with `a ≥ 1` that lie in
the `i32` range and whose sum and difference stay in the `i32` range (so
that the `as i32` casts at lib.rs:250/254 are exact and the `i32`
arithmetic at lib.rs:256/275 cannot overflow), `POST "increment"` on
`{count: c, amount: a}` returns success with `data.count = c + a` and
`POST "decrement"` returns success with `data.count = c - a`. -/
theorem post_increment_decrement_i32_range (c a : Int) (net memo : String)
    (hc1 : -(2 ^ 31) ≤ c) (hc2 : c ≤ 2 ^ 31 - 1)
    (ha1 : 1 ≤ a) (ha2 : a ≤ 2 ^ 31 - 1)
    (hs1 : -(2 ^ 31) ≤ c + a) (hs2 : c + a ≤ 2 ^ 31 - 1)
    (hd1 : -(2 ^ 31) ≤ c - a) (hd2 : c - a ≤ 2 ^ 31 - 1) :
    post "increment" (some (Json.obj [("count", Json.num c), ("amount", Json.num a)])) net memo
      = Except.ok (Json.obj
          [("success", Json.bool true),
           ("data", Json.obj [("count", Json.num (c + a))]),
           ("message", Json.str s!"Counter incremented by {a} to {c + a}")]) ∧
    post "decrement" (some (Json.obj [("count", Json.num c), ("amount", Json.num a)])) net memo
      = Except.ok (Json.obj
          [("success", Json.bool true),
           ("data", Json.obj [("count", Json.num (c - a))]),
           ("message", Json.str s!"Counter decremented by {a} to {c - a}")]) := by
  constructor <;>
    · unfold post
      simp [Json.getField, Json.asNum, List.lookup,
        i32OfF64_eq_self (by omega : -(2 ^ 31) ≤ a) (by omega),
        i32OfF64_eq_self hc1 hc2, i32Wrap_eq_self hs1 hs2, i32Wrap_eq_self hd1 hd2]

/-- Claim C4, witness at `count = 10`, `amount = 3`. -/
theorem post_increment_decrement_i32_range_witness :
    resultData (post "increment"
        (some (Json.obj [("count", Json.num 10), ("amount", Json.num 3)])) "" "") "count"
      = some (Json.num 13) ∧
    resultData (post "decrement"
        (some (Json.obj [("count", Json.num 10), ("amount", Json.num 3)])) "" "") "count"
      = some (Json.num 7) := by
  have h := post_increment_decrement_i32_range 10 3 "" ""
    (by decide) (by decide) (by decide) (by decide)
    (by decide) (by decide) (by decide) (by decide)
  rw [h.1, h.2]
  exact ⟨rfl, rfl⟩

/-- Claim C5: the action names listed by `INFO` are exactly
`{increment, decrement, reset, toggleCounter, toggleStats}`, and that list
is exactly the set `POST` dispatches on (everything outside it, and
nothing inside it, gets the unknown-action result) and exactly the set
`GET` dispatches on (everything outside it, and nothing inside it, gets
the unknown-action form). -/
theorem info_actions_match_dispatch :
    info.actions.map ActionDefinition.name = actionNames ∧
    (∀ a j net memo, a ∉ actionNames →
      post a (some j) net memo = Except.ok (unknownActionResult a)) ∧
    (∀ a j net memo, a ∈ actionNames →
      post a (some j) net memo ≠ Except.ok (unknownActionResult a)) ∧
    (∀ a p net, a ∉ actionNames → get a p net = Except.ok (unknownActionForm a)) ∧
    (∀ a p net, a ∈ actionNames → get a p net ≠ Except.ok (unknownActionForm a)) :=
  ⟨rfl, post_unknown_of_not_mem, post_ne_unknown_of_mem,
   get_unknown_of_not_mem, get_ne_unknown_of_mem⟩

/-- Claim C5, witness: the name `foo` is outside the descriptor list and
gets the unknown-action documents, while the listed name `reset` does
not. -/
theorem info_actions_match_dispatch_witness :
    post "foo" (some Json.null) "" "" = Except.ok (unknownActionResult "foo") ∧
    get "foo" "" "" = Except.ok (unknownActionForm "foo") ∧
    post "reset" (some Json.null) "" "" ≠ Except.ok (unknownActionResult "reset") :=
  ⟨info_actions_match_dispatch.2.1 "foo" Json.null "" "" (by decide),
   info_actions_match_dispatch.2.2.2.1 "foo" "" "" (by decide),
   info_actions_match_dispatch.2.2.1 "reset" Json.null "" "" (by decide)⟩

/-- Claim C6: the result of `POST` is independent of the `network` and
`hash_link_memo` arguments: the body of `post` (lib.rs:235-329) never
reads them, so two calls differing only there coincide. -/
theorem post_ignores_network_and_memo (action : String) (paramsJson : Option Json)
    (net1 memo1 net2 memo2 : String) :
    post action paramsJson net1 memo1 = post action paramsJson net2 memo2 := rfl

/-- Claim C7, counterexample: at `c = -(2^31) - 1` (one below the `i32`
range), `POST "increment"` with `amount` omitted returns
`data.count = -(2^31) + 1`, because the `as i32` cast first clamps the
count to `-(2^31)`; the claimed value `c + 1 = -(2^31)` differs. -/
theorem post_amount_omitted_counterexample :
    resultData (post "increment"
        (some (Json.obj [("count", Json.num (-(2 ^ 31) - 1))])) "" "") "count"
      = some (Json.num (-(2 ^ 31) + 1)) ∧
    -(2 ^ 31) - 1 + 1 ≠ -(2 ^ 31) + (1 : Int) :=
  ⟨rfl, by decide⟩

/-- Claim C7 (amended): `POST "increment"` (resp. `"decrement"`) with
`amount` omitted behaves exactly as if `amount` were `1`
(lib.rs:248-250, `unwrap_or(1.0)`), and for every integer `c` such that
`c`, `c+1` and `c-1` all lie in the `i32` range it returns success with
`data.count = c + 1` (resp. `c - 1`). -/
theorem post_amount_defaults_to_one (c : Int) (net memo : String)
    (h1 : -(2 ^ 31) + 1 ≤ c) (h2 : c ≤ 2 ^ 31 - 2) :
    post "increment" (some (Json.obj [("count", Json.num c)])) net memo
      = post "increment" (some (Json.obj [("count", Json.num c), ("amount", Json.num 1)])) net memo ∧
    resultData (post "increment" (some (Json.obj [("count", Json.num c)])) net memo) "count"
      = some (Json.num (c + 1)) ∧
    resultSuccess (post "increment" (some (Json.obj [("count", Json.num c)])) net memo)
      = some (Json.bool true) ∧
    post "decrement" (some (Json.obj [("count", Json.num c)])) net memo
      = post "decrement" (some (Json.obj [("count", Json.num c), ("amount", Json.num 1)])) net memo ∧
    resultData (post "decrement" (some (Json.obj [("count", Json.num c)])) net memo) "count"
      = some (Json.num (c - 1)) ∧
    resultSuccess (post "decrement" (some (Json.obj [("count", Json.num c)])) net memo)
      = some (Json.bool true) := by
  refine ⟨?_, ?_, ?_, ?_, ?_, ?_⟩ <;>
    simp [post, resultData, resultSuccess, Json.getField, Json.asNum, List.lookup,
      i32OfF64_one, i32OfF64_eq_self (by omega : -(2 ^ 31) ≤ c) (by omega),
      i32Wrap_eq_self (by omega : -(2 ^ 31) ≤ c + 1) (by omega),
      i32Wrap_eq_self (by omega : -(2 ^ 31) ≤ c - 1) (by omega)]

/-- Claim C7, witness at `c = 5`. -/
theorem post_amount_defaults_to_one_witness :
    resultData (post "increment" (some (Json.obj [("count", Json.num 5)])) "" "") "count"
      = some (Json.num 6) ∧
    resultData (post "decrement" (some (Json.obj [("count", Json.num 5)])) "" "") "count"
      = some (Json.num 4) := by
  have h := post_amount_defaults_to_one 5 "" "" (by decide) (by decide)
  exact ⟨h.2.1, h.2.2.2.2.1⟩

/-- Claim C8: for every boolean `b`, `POST "toggleCounter"` on
`{showCounter: b}` succeeds with `data.showCounter = !b` (and
`"toggleStats"` on `{showStats: b}` with `data.showStats = !b`,
lib.rs:294-323), and toggling the returned value again yields the original
`b` (double negation is the identity). -/
theorem post_toggle_negation (b : Bool) (net memo : String) :
    post "toggleCounter" (some (Json.obj [("showCounter", Json.bool b)])) net memo
      = Except.ok (Json.obj
          [("success", Json.bool true),
           ("data", Json.obj [("showCounter", Json.bool (!b))]),
           ("message", Json.str s!"Counter visibility toggled to {!b}")]) ∧
    post "toggleStats" (some (Json.obj [("showStats", Json.bool b)])) net memo
      = Except.ok (Json.obj
          [("success", Json.bool true),
           ("data", Json.obj [("showStats", Json.bool (!b))]),
           ("message", Json.str s!"Stats visibility toggled to {!b}")]) ∧
    resultData (post "toggleCounter"
        (some (Json.obj [("showCounter", Json.bool (!b))])) net memo) "showCounter"
      = some (Json.bool b) ∧
    resultData (post "toggleStats"
        (some (Json.obj [("showStats", Json.bool (!b))])) net memo) "showStats"
      = some (Json.bool b) := by
  cases b <;> exact ⟨rfl, rfl, rfl, rfl⟩

/-- Claim C9: a `count` field holding a non-number is conflated with an
absent `count`: both make `POST increment`/`decrement` hard-fail with
`Missing required parameter: count` (the `and_then(as_f64)` chain at
lib.rs:252-254 yields `None` in both cases); likewise a non-boolean
`showCounter`/`showStats` for the toggle actions (lib.rs:295-297). -/
theorem post_wrong_typed_param_conflated_with_absent (v w : Json) (net memo : String)
    (hv : v.asNum = none) (hw : w.asBool = none) :
    post "increment" (some (Json.obj [("count", v)])) net memo
      = post "increment" (some (Json.obj [])) net memo ∧
    post "increment" (some (Json.obj [("count", v)])) net memo
      = Except.error "Missing required parameter: count" ∧
    post "decrement" (some (Json.obj [("count", v)])) net memo
      = Except.error "Missing required parameter: count" ∧
    post "toggleCounter" (some (Json.obj [("showCounter", w)])) net memo
      = post "toggleCounter" (some (Json.obj [])) net memo ∧
    post "toggleCounter" (some (Json.obj [("showCounter", w)])) net memo
      = Except.error "Missing required parameter: showCounter" ∧
    post "toggleStats" (some (Json.obj [("showStats", w)])) net memo
      = Except.error "Missing required parameter: showStats" := by
  refine ⟨?_, ?_, ?_, ?_, ?_, ?_⟩ <;>
    simp [post, Json.getField, List.lookup, hv, hw]

/-- Claim C9, witness: a string-valued `count` and a number-valued
`showCounter`. -/
theorem post_wrong_typed_param_witness :
    post "increment" (some (Json.obj [("count", Json.str "five")])) "" ""
      = Except.error "Missing required parameter: count" ∧
    post "toggleCounter" (some (Json.obj [("showCounter", Json.num 0)])) "" ""
      = Except.error "Missing required parameter: showCounter" := by
  have h := post_wrong_typed_param_conflated_with_absent
    (Json.str "five") (Json.num 0) "" "" rfl rfl
  exact ⟨h.2.1, h.2.2.2.2.1⟩

/-- Claim C10: `GET` never decodes or consults its `params` (or `network`)
argument — its result is the same for any two values of them, including
malformed JSON — the call never hard-fails, and for an unknown action name
it returns the document `{"error": "Unknown action: <name>"}` containing
only the error field (lib.rs:331-403). -/
theorem get_static_and_total (a p1 net1 p2 net2 : String) :
    get a p1 net1 = get a p2 net2 ∧
    (get a p1 net1).isOk = true ∧
    (a ∉ actionNames → get a p1 net1 = Except.ok (unknownActionForm a)) :=
  ⟨rfl, get_isOk a p1 net1, fun h => get_unknown_of_not_mem a p1 net1 h⟩

/-- Claim C10, witness: an unknown action with a malformed params string. -/
theorem get_static_and_total_witness :
    get "transfer" "this is not json" "mainnet"
      = Except.ok (unknownActionForm "transfer") :=
  (get_static_and_total "transfer" "this is not json" "mainnet" "" "").2.2 (by decide)

end StandardsSDK
